import Mathlib

/-!
Verification development for the explain-rag repository.

The definitions below are shallow embeddings of the program source:
the pgvector SQL function search_similar_chunks from the initial schema
migration, and the frontend TypeScript modules (custom-fetch.ts,
AnswerDisplay.tsx, ErrorDisplay.tsx / FaithfulnessReport, ChunksPanel
getRankChangeDisplay, QueryInput.tsx, useEmbeddingSpace
normalizeCoordinates, design-tokens.ts getClusterAppearance,
PapersPanel grouping, RecomputeButton.tsx).  Components of the backend
pipeline that are absent from the repository snapshot are modelled from
the specification and marked as such in their doc comments.
-/

/-! ## Vector arithmetic (pgvector cosine metric)

The chunks table stores `embedding vector(384)` and the search function
orders by the pgvector cosine-distance operator.  Embeddings are
modelled as lists of reals; the cosine distance of the operator is
1 - dot a b / (norm a * norm b).
-/

/-- Dot product of two real vectors, zipping componentwise. -/
def dotProduct (a b : List ℝ) : ℝ := (List.zipWith (· * ·) a b).sum

/-- Euclidean norm of a real vector. -/
noncomputable def vecNorm (a : List ℝ) : ℝ := Real.sqrt (dotProduct a a)

/-- Cosine distance, the semantics of the pgvector distance operator used in
the ORDER BY clause of search_similar_chunks. -/
noncomputable def cosineDistance (a b : List ℝ) : ℝ :=
  1 - dotProduct a b / (vecNorm a * vecNorm b)

/-! ## Relational model of the schema and of search_similar_chunks -/

/-- Row of the chunks table (columns used by search_similar_chunks).
The embedding column is nullable. -/
structure ChunkRow where
  id : String
  paper_id : String
  content : String
  embedding : Option (List ℝ)

/-- Row of the papers table (columns used by search_similar_chunks). -/
structure PaperRow where
  id : String
  title : String

/-- The database state read by search_similar_chunks. -/
structure Database where
  chunks : List ChunkRow
  papers : List PaperRow

/-- The WHERE clause on filter_paper_ids:
filter_paper_ids IS NULL OR c.paper_id = ANY(filter_paper_ids). -/
def filterOk (filt : Option (List String)) (pid : String) : Bool :=
  match filt with
  | none => true
  | some ids => ids.contains pid

/-- Output row of search_similar_chunks. -/
structure SearchRow where
  chunk_id : String
  paper_id : String
  paper_title : String
  content : String
  similarity : ℝ

/-- The multiset of rows produced by the FROM/JOIN/WHERE/SELECT part of
search_similar_chunks, in table order, before ORDER BY and LIMIT:
chunks joined with papers on p.id = c.paper_id, restricted to non-null
embeddings and to the optional paper filter, with
similarity = 1 - (c.embedding cosine-distance query_embedding). -/
noncomputable def searchRows (db : Database) (query : List ℝ)
    (filt : Option (List String)) : List SearchRow :=
  db.chunks.flatMap fun c =>
    match c.embedding with
    | none => []
    | some e =>
      if filterOk filt c.paper_id then
        (db.papers.filter fun p => p.id == c.paper_id).map fun p =>
          { chunk_id := c.id
            paper_id := c.paper_id
            paper_title := p.title
            content := c.content
            similarity := 1 - cosineDistance e query }
      else []

/-- The ORDER BY key of search_similar_chunks: the cosine distance of the
row, recovered from the selected similarity column. -/
noncomputable def distKey (r : SearchRow) : ℝ := 1 - r.similarity

/-- Result relation of search_similar_chunks: res is a possible result of
ORDER BY (cosine distance ascending, tie order unspecified by SQL)
followed by LIMIT match_count. -/
def IsSearchResult (db : Database) (query : List ℝ)
    (filt : Option (List String)) (matchCount : ℕ)
    (res : List SearchRow) : Prop :=
  ∃ l : List SearchRow,
    l.Perm (searchRows db query filt) ∧
    l.Sorted (fun a b => distKey a ≤ distKey b) ∧
    res = l.take matchCount

/-! ## customFetch (frontend/src/api/custom-fetch.ts) -/

/-- A JSON value as far as customFetch inspects it: the error body fields
message and detail (either may be absent), plus the rest of the payload.
A field holding the empty string is falsy in JavaScript, which matters
for the or-chains in the source. -/
structure JsonVal where
  message : Option String
  detail : Option String
  payload : String
deriving DecidableEq

/-- Body of an HTTP response as seen through response.json(): either it
parses to a JSON value or the parse rejects. -/
inductive Body where
  | malformed
  | json (j : JsonVal)
deriving DecidableEq

/-- Outcome of the underlying fetch call: the promise rejects before any
response exists, or a response arrives with a status code and a body. -/
inductive FetchOutcome where
  | rejected
  | resp (status : ℕ) (body : Body)

/-- Response.ok of the fetch API: status in the inclusive range 200-299. -/
def respOk (status : ℕ) : Bool := 200 ≤ status && status < 300

/-- JavaScript truthiness of an optional string field: null, undefined and
the empty string are falsy. -/
def jsTruthy : Option String → Bool
  | none => false
  | some s => !(s == "")

/-- The or-chain a || b || c over optional string fields, with fallback. -/
def jsOr (a b : Option String) (fallback : String) : String :=
  if jsTruthy a then a.getD "" else if jsTruthy b then b.getD "" else fallback

/-- Result of a customFetch call as observed by a caller. -/
inductive CFResult where
  | success (data : JsonVal) (status : ℕ)
  | apiError (message : String) (status : ℕ) (detail : Option String)
  | connectionError (message : String)
  | parseFailure
deriving DecidableEq

/-- Shallow embedding of customFetch: a rejected fetch throws a plain
Error with the fixed connection message; a non-ok response throws an
APIError whose message is errorData.message || errorData.detail ||
the status fallback (the status fallback alone when the error body does
not parse) and whose detail is errorData.detail; an ok response returns
the parsed body with the status.  When an ok response body fails to
parse, the rejection of response.json() propagates uncaught. -/
def customFetch : FetchOutcome → CFResult
  | .rejected =>
      .connectionError
       "Failed to connect to server. Please check that the backend is running."
  | .resp status body =>
      if respOk status then
        match body with
        | .json j => .success j status
        | .malformed => .parseFailure
      else
        match body with
        | .json j =>
            .apiError
              (jsOr j.message j.detail
                ("Request failed with status " ++ toString status))
              status j.detail
        | .malformed =>
            .apiError ("Request failed with status " ++ toString status)
              status none

/-! ## Faithfulness report (ErrorDisplay.tsx, FaithfulnessReport) -/

/-- A claim produced by the faithfulness verifier, as typed in the
frontend model: the verdict is the string supported, unsupported or
partial. -/
structure FClaim where
  claim : String
  verdict : String
  reasoning : String

/-- The supported-claim count computed by the FaithfulnessReport
component: claims.filter((c) => c.verdict === "supported").length. -/
def supportedCount (claims : List FClaim) : ℕ :=
  (claims.filter fun c => c.verdict == "supported").length

/-- Modelled from the spec: the backend Faithfulness Verifier is not part
of the repository snapshot; section 4.4 of the spec defines the aggregate
score as supported_count / total_claims.  Over the rationals a zero-claim
list yields 0/0 = 0. -/
def faithfulnessScore (claims : List FClaim) : ℚ :=
  (supportedCount claims : ℚ) / (claims.length : ℚ)

/-! ## Citation marker rendering (AnswerDisplay.tsx) -/

/-- A citation entry, as in the frontend model. -/
structure Citation where
  claim : String
  chunk_ids : List String
  confidence : ℚ
deriving DecidableEq

/-- A token of the answer text after the split on the marker pattern:
either a citation marker (with the parsed number and the original
characters of the marker) or plain text between markers. -/
inductive Token where
  | marker (n : ℕ) (raw : List Char)
  | text (s : List Char)
deriving DecidableEq

/-- Numeric value of a run of decimal digits, as parseInt computes it. -/
def digitsVal (ds : List Char) : ℕ :=
  ds.foldl (fun a c => 10 * a + (c.toNat - 48)) 0

/-- Attempt to read the marker pattern (an opening bracket, one or more
decimal digits, a closing bracket) at the head of the character list,
returning the parsed number, the consumed characters and the remainder. -/
def tryMarker : List Char → Option (ℕ × List Char × List Char)
  | '[' :: rest =>
      let ds := rest.takeWhile Char.isDigit
      match rest.drop ds.length with
      | ']' :: rest2 =>
          if ds.isEmpty then none
          else some (digitsVal ds, '[' :: ds ++ [']'], rest2)
      | _ => none
  | _ => none

/-- Attach a character to the front of a token list, merging it into a
leading text token so that maximal runs of plain text form one token,
matching the parts produced by the split in the source. -/
def consText (c : Char) : List Token → List Token
  | .text s :: ts => .text (c :: s) :: ts
  | ts => .text [c] :: ts

/-- Fuel-indexed scanner for the split of the answer on the marker
pattern: at each position a marker is consumed whole, any other
character becomes plain text.  Fuel at least the length of the input is
always sufficient. -/
def tokenizeGo : ℕ → List Char → List Token
  | 0, _ => []
  | _ + 1, [] => []
  | fuel + 1, c :: cs =>
      match tryMarker (c :: cs) with
      | some (n, raw, rest) => .marker n raw :: tokenizeGo fuel rest
      | none => consText c (tokenizeGo fuel cs)

/-- The split of the answer into text parts and citation markers, the
semantics of answer.split on the capturing marker pattern followed by the
per-part match in renderAnswerWithCitations (modulo empty text parts,
which render as empty spans). -/
def tokenize (cs : List Char) : List Token := tokenizeGo cs.length cs

/-- JavaScript array indexing with a possibly negative index: defined
exactly on indices inside the array bounds. -/
def jsIndex {α : Type} (l : List α) (i : ℤ) : Option α :=
  if 0 ≤ i then l.get? i.toNat else none

/-- A rendered part of the answer: a clickable citation badge attached to
a citation entry, or a plain text span. -/
inductive RPart where
  | badge (n : ℕ) (c : Citation)
  | plain (s : List Char)
deriving DecidableEq

/-- Rendering of one token in renderAnswerWithCitations: a marker looks
up citations[n - 1]; when the entry exists the marker renders as a badge
for that citation, otherwise the marker text falls through as plain
text.  Text tokens render as plain text. -/
def renderToken (citations : List Citation) : Token → RPart
  | .marker n raw =>
      match jsIndex citations ((n : ℤ) - 1) with
      | some c => .badge n c
      | none => .plain raw
  | .text s => .plain s

/-- The body of renderAnswerWithCitations: split the answer, then render
each part. -/
def renderAnswerWithCitations (answer : List Char)
    (citations : List Citation) : List RPart :=
  (tokenize answer).map (renderToken citations)

/-! ## Rank change display (ChunksPanel.tsx, getRankChangeDisplay) -/

/-- The icon chosen by getRankChangeDisplay. -/
inductive RankIcon where
  | arrowUp
  | arrowDown
  | minus
deriving DecidableEq

/-- The display record built by getRankChangeDisplay (the purely
decorative className and tooltip fields are omitted). -/
structure RankChange where
  icon : RankIcon
  text : List Char
deriving DecidableEq

/-- Decimal digit to character, as in JavaScript number printing. -/
def digitChar (d : ℕ) : Char := Char.ofNat (48 + d)

/-- Decimal rendering of a natural number, the semantics of the template
interpolation of a nonnegative integer in the source. -/
def natChars (n : ℕ) : List Char := ((Nat.digits 10 n).reverse).map digitChar

/-- Decimal rendering of an integer, the semantics of the template
interpolation of change in the source (negative values print with a
leading minus sign). -/
def intChars (z : ℤ) : List Char :=
  if z < 0 then '-' :: natChars z.natAbs else natChars z.natAbs

/-- Shallow embedding of getRankChangeDisplay: null (or undefined)
rerankScore yields null; otherwise change = originalRank - rank selects
a promoted, demoted or unchanged display whose text is +change, change
or the equals sign. -/
def getRankChangeDisplay (originalRank rank : ℤ) (rerankScore : Option ℚ) :
    Option RankChange :=
  match rerankScore with
  | none => none
  | some _ =>
      let change := originalRank - rank
      if change > 0 then some { icon := .arrowUp, text := '+' :: intChars change }
      else if change < 0 then some { icon := .arrowDown, text := intChars change }
      else some { icon := .minus, text := ['='] }

/-- Character to decimal digit value. -/
def charDigit (c : Char) : ℕ := c.toNat - 48

/-- Numeric value of a rendered decimal string. -/
def charsVal (ds : List Char) : ℕ := Nat.ofDigits 10 ((ds.map charDigit).reverse)

/-- Decoder recovering the rank delta from the text of a rank-change
display: the equals sign decodes to zero, a leading plus or minus sign
fixes the sign of the decoded digits. -/
def decodeRankText : List Char → ℤ
  | ['='] => 0
  | '+' :: ds => (charsVal ds : ℤ)
  | '-' :: ds => -(charsVal ds : ℤ)
  | ds => (charsVal ds : ℤ)

/-! ## Query form (QueryInput.tsx) -/

/-- JavaScript String.prototype.trim over a character list: drop
whitespace from both ends. -/
def jsTrim (s : List Char) : List Char :=
  (((s.dropWhile Char.isWhitespace).reverse).dropWhile Char.isWhitespace).reverse

/-- Component state of QueryInput: the question text and the two
controls. -/
structure QIState where
  question : List Char
  topK : ℤ
  enableReranking : Bool

/-- Initial state of QueryInput: useState(defaultQuestion), useState(10),
useState(false). -/
def initQIState (defaultQuestion : List Char) : QIState :=
  { question := defaultQuestion, topK := 10, enableReranking := false }

/-- User interactions with the form controls. -/
inductive QIEvent where
  | setQuestion (s : List Char)
  | setTopK (v : ℤ)
  | setReranking (b : Bool)

/-- State update of each interaction. -/
def applyQIEvent (s : QIState) : QIEvent → QIState
  | .setQuestion q => { s with question := q }
  | .setTopK v => { s with topK := v }
  | .setReranking b => { s with enableReranking := b }

/-- Run a sequence of interactions from a state. -/
def runQIEvents (s : QIState) (es : List QIEvent) : QIState :=
  es.foldl applyQIEvent s

/-- The Slider for Top K carries min 1, max 50, step 1, so control events
only ever carry integer values inside that range; question edits and the
reranking switch are unconstrained. -/
def sliderBounded : QIEvent → Prop
  | .setTopK v => 1 ≤ v ∧ v ≤ 50
  | _ => True

/-- A query as submitted to onSubmit. -/
structure SubmittedQuery where
  question : List Char
  top_k : ℤ
  enable_reranking : Bool
deriving DecidableEq

/-- handleSubmit of QueryInput: submission happens only when the trimmed
question is nonempty, and submits the trimmed question with the current
control values. -/
def handleSubmit (s : QIState) : Option SubmittedQuery :=
  if jsTrim s.question ≠ [] then
    some { question := jsTrim s.question
           top_k := s.topK
           enable_reranking := s.enableReranking }
  else none

/-! ## Embedding atlas frontend (useEmbeddingSpace, design-tokens,
PapersPanel) -/

/-- Paper record as fetched from the embeddings endpoint, before
normalization: cluster_id is nullable. -/
structure RawPaper where
  paper_id : String
  arxiv_id : String
  title : String
  coords : ℝ × ℝ × ℝ
  cluster_id : Option ℤ
  chunk_count : ℕ

/-- Paper record consumed by the visualization components: cluster_id is
an integer with -1 denoting noise. -/
structure Paper where
  paper_id : String
  arxiv_id : String
  title : String
  coords : ℝ × ℝ × ℝ
  cluster_id : ℤ
  chunk_count : ℕ

/-- Squared-component distance used in normalizeCoordinates. -/
noncomputable def coordDist (a b : ℝ × ℝ × ℝ) : ℝ :=
  Real.sqrt ((a.1 - b.1) * (a.1 - b.1) + (a.2.1 - b.2.1) * (a.2.1 - b.2.1) +
    (a.2.2 - b.2.2) * (a.2.2 - b.2.2))

open Classical in
/-- Shallow embedding of normalizeCoordinates from useEmbeddingSpace:
center the coordinates on the centroid, scale the maximal distance to a
radius of three units, and replace a null cluster_id by -1. -/
noncomputable def normalizeCoordinates (rawPapers : List RawPaper) :
    List Paper :=
  if rawPapers.isEmpty then []
  else
    let n : ℝ := rawPapers.length
    let centroid : ℝ × ℝ × ℝ :=
      ((rawPapers.map fun p => p.coords.1).sum / n,
       (rawPapers.map fun p => p.coords.2.1).sum / n,
       (rawPapers.map fun p => p.coords.2.2).sum / n)
    let maxDist : ℝ :=
      rawPapers.foldl (fun m p => max m (coordDist p.coords centroid)) 0
    let targetRadius : ℝ := 3
    let scale : ℝ := if maxDist > 0 then targetRadius / maxDist else 1
    rawPapers.map fun p =>
      { paper_id := p.paper_id
        arxiv_id := p.arxiv_id
        title := p.title
        coords := ((p.coords.1 - centroid.1) * scale,
                   (p.coords.2.1 - centroid.2.1) * scale,
                   (p.coords.2.2 - centroid.2.2) * scale)
        cluster_id := p.cluster_id.getD (-1)
        chunk_count := p.chunk_count }

/-- Material preset of design-tokens.ts. -/
structure Material where
  roughness : ℚ
  metalness : ℚ
deriving DecidableEq

/-- Cluster appearance of design-tokens.ts. -/
structure ClusterAppearance where
  color : String
  material : Material
deriving DecidableEq

/-- The matte, glossy and metallic material presets. -/
def matteMaterial : Material := { roughness := 9/10, metalness := 0 }

/-- Glossy material preset. -/
def glossyMaterial : Material := { roughness := 2/10, metalness := 1/10 }

/-- Metallic material preset. -/
def metallicMaterial : Material := { roughness := 35/100, metalness := 7/10 }

/-- The noise color of design-tokens.ts. -/
def noiseColor : String := "#D4D4D4"

/-- The ordered cluster appearances of design-tokens.ts. -/
def clusterAppearances : List ClusterAppearance :=
  [ { color := "#1E293B", material := matteMaterial },
    { color := "#57534E", material := glossyMaterial },
    { color := "#94A3B8", material := metallicMaterial },
    { color := "#292524", material := glossyMaterial },
    { color := "#475569", material := metallicMaterial },
    { color := "#A8A29E", material := matteMaterial } ]

/-- Shallow embedding of getClusterAppearance: negative ids get the noise
appearance, nonnegative ids cycle through the six appearances. -/
def getClusterAppearance (clusterId : ℤ) : ClusterAppearance :=
  if clusterId < 0 then { color := noiseColor, material := matteMaterial }
  else
    clusterAppearances.getD (clusterId % (clusterAppearances.length : ℤ)).toNat
      { color := noiseColor, material := matteMaterial }

/-- The grouping loop of PapersPanel: papers with negative cluster_id go
to the unclustered list. -/
def unclusteredPapers (papers : List Paper) : List Paper :=
  papers.filter fun p => p.cluster_id < 0

/-- The grouping loop of PapersPanel: papers with nonnegative cluster_id
go to the map entry of their cluster id. -/
def papersByCluster (papers : List Paper) (cid : ℤ) : List Paper :=
  papers.filter fun p => !(p.cluster_id < 0) && p.cluster_id == cid

/-! ## Atlas recompute exclusivity -/

/-- Outcome of a recompute request, as reported to its caller. -/
inductive RecomputeOutcome where
  | pending
  | success (papers_processed clusters_found : ℕ) (time_ms : ℚ)
  | concurrencyError
deriving DecidableEq

/-- Modelled from the spec: the backend Atlas recompute endpoint is not
part of the repository snapshot.  Sections 5 and 9 of the spec require a
flag-guarded, replace-on-write batch job: the system keeps the list of
requests currently holding the job, a request that arrives while the
list is nonempty is rejected with a concurrency error, and a finishing
holder leaves the list and reports the result. -/
structure AtlasSystem where
  running : List ℕ
  outcome : ℕ → RecomputeOutcome

/-- Requests arriving at and leaving the recompute job. -/
inductive AtlasEvent where
  | start (i : ℕ)
  | finish (i : ℕ) (papers clusters : ℕ) (time : ℚ)

/-- Modelled from the spec: transition of the flag-guarded recompute job.
A start with the job idle acquires it; a start with the job busy is
rejected with the distinct concurrency status; a finish by the holder
releases the job and records the result. -/
def atlasStep (s : AtlasSystem) : AtlasEvent → AtlasSystem
  | .start i =>
      if s.running.isEmpty then
        { s with running := [i] }
      else
        { s with outcome := fun j => if j = i then .concurrencyError else s.outcome j }
  | .finish i papers clusters time =>
      if s.running = [i] then
        { running := [],
          outcome := fun j =>
            if j = i then .success papers clusters time else s.outcome j }
      else s

/-- Run a sequence of recompute events. -/
def atlasRun (s : AtlasSystem) (es : List AtlasEvent) : AtlasSystem :=
  es.foldl atlasStep s

/-- The idle system with no outcomes recorded. -/
def atlasInit : AtlasSystem := { running := [], outcome := fun _ => .pending }

/-- The client-side serialization in RecomputeButton: the button is
disabled while the mutation is pending, so a click issues a mutate call
only when no request is pending. -/
def recomputeClick (isPending : Bool) : Option Unit :=
  if isPending then none else some ()

/-- Whether a customFetch result falls in one of the three channels named
by the specification claim: a successful JSON value, an APIError, or the
connection-failure Error. -/
def cfIsThreeChannel : CFResult → Bool
  | .success _ _ => true
  | .apiError _ _ _ => true
  | .connectionError _ => true
  | .parseFailure => false

/-! ## Helper lemmas -/

theorem dotProduct_eq_sum (a b : List ℝ) :
    dotProduct a b =
      ∑ i ∈ Finset.range (min a.length b.length), a.getD i 0 * b.getD i 0 := by
  induction a generalizing b with
  | nil => simp [dotProduct]
  | cons x xs ih =>
    cases b with
    | nil => simp [dotProduct]
    | cons y ys =>
      have hmin : min (x :: xs).length (y :: ys).length =
          min xs.length ys.length + 1 := by
        simp [Nat.succ_min_succ]
      rw [hmin, Finset.sum_range_succ']
      simp only [List.getD_cons_succ, List.getD_cons_zero]
      rw [← ih]
      simp [dotProduct, add_comm]

theorem dotProduct_self_nonneg (a : List ℝ) : 0 ≤ dotProduct a a := by
  rw [dotProduct_eq_sum]
  exact Finset.sum_nonneg fun i _ => mul_self_nonneg _

theorem dot_sq_le_dot_mul_dot (a b : List ℝ) :
    (dotProduct a b) ^ 2 ≤ dotProduct a a * dotProduct b b := by
  rw [dotProduct_eq_sum a b]
  have hcs := Finset.sum_mul_sq_le_sq_mul_sq (Finset.range (min a.length b.length))
    (fun i => a.getD i 0) (fun i => b.getD i 0)
  refine hcs.trans (mul_le_mul ?_ ?_ ?_ (dotProduct_self_nonneg a))
  · rw [dotProduct_eq_sum a a, min_self]
    refine Finset.sum_le_sum_of_subset_of_nonneg
      (Finset.range_subset.mpr (min_le_left _ _)) (fun i _ _ => ?_) |>.trans ?_
    · positivity
    · refine le_of_eq (Finset.sum_congr rfl fun i _ => ?_)
      ring
  · rw [dotProduct_eq_sum b b, min_self]
    refine Finset.sum_le_sum_of_subset_of_nonneg
      (Finset.range_subset.mpr (min_le_right _ _)) (fun i _ _ => ?_) |>.trans ?_
    · positivity
    · refine le_of_eq (Finset.sum_congr rfl fun i _ => ?_)
      ring
  · positivity

theorem abs_dotProduct_le (a b : List ℝ) :
    |dotProduct a b| ≤ vecNorm a * vecNorm b := by
  have h := dot_sq_le_dot_mul_dot a b
  calc |dotProduct a b| = Real.sqrt ((dotProduct a b) ^ 2) :=
        (Real.sqrt_sq_eq_abs _).symm
    _ ≤ Real.sqrt (dotProduct a a * dotProduct b b) := Real.sqrt_le_sqrt h
    _ = vecNorm a * vecNorm b := by
        rw [Real.sqrt_mul (dotProduct_self_nonneg a)]
        rfl

theorem similarity_bounds (a b : List ℝ) (ha : 0 < dotProduct a a)
    (hb : 0 < dotProduct b b) :
    -1 ≤ 1 - cosineDistance a b ∧ 1 - cosineDistance a b ≤ 1 := by
  have hna : 0 < vecNorm a := Real.sqrt_pos.mpr ha
  have hnb : 0 < vecNorm b := Real.sqrt_pos.mpr hb
  have hD : 0 < vecNorm a * vecNorm b := mul_pos hna hnb
  have hval : 1 - cosineDistance a b =
      dotProduct a b / (vecNorm a * vecNorm b) := by
    unfold cosineDistance
    ring
  have habs : |dotProduct a b / (vecNorm a * vecNorm b)| ≤ 1 := by
    rw [abs_div, abs_of_pos hD]
    exact (div_le_one hD).mpr (by simpa using abs_dotProduct_le a b)
  rw [hval]
  exact abs_le.mp habs

theorem sorted_perm_eq_of_pairwise_ne {α : Type} (key : α → ℝ)
    (l1 l2 : List α) (hp : l1.Perm l2)
    (hs1 : l1.Sorted fun x y => key x ≤ key y)
    (hs2 : l2.Sorted fun x y => key x ≤ key y)
    (hpw : l1.Pairwise fun x y => key x ≠ key y) : l1 = l2 := by
  induction l1 generalizing l2 with
  | nil => exact (List.nil_perm.mp hp).symm
  | cons a t1 ih =>
    cases l2 with
    | nil => exact absurd hp.length_eq (by simp)
    | cons b t2 =>
      have hab : a = b := by
        by_contra heq
        have ha2 : a ∈ t2 := by
          have := hp.subset (List.mem_cons_self a t1)
          exact (List.mem_cons.mp this).resolve_left heq
        have hb1 : b ∈ t1 := by
          have := hp.symm.subset (List.mem_cons_self b t2)
          exact (List.mem_cons.mp this).resolve_left fun h => heq h.symm
        have h1 : key a ≤ key b := (List.sorted_cons.mp hs1).1 b hb1
        have h2 : key b ≤ key a := (List.sorted_cons.mp hs2).1 a ha2
        exact (List.pairwise_cons.mp hpw).1 b hb1 (le_antisymm h1 h2)
      subst hab
      have ht : t1 = t2 :=
        ih t2 hp.cons_inv hs1.of_cons hs2.of_cons (List.pairwise_cons.mp hpw).2
      rw [ht]

/-! ## Claim C1 -/

/-- C1: for every query embedding, match count, paper filter and corpus
state, any result of search_similar_chunks has exactly
min(match_count, C) rows where C is the number of eligible joined
chunks, is ordered by non-increasing similarity (equivalently
non-decreasing cosine distance), and an empty eligible corpus yields the
empty sequence rather than an error. -/
theorem search_similar_chunks_count_and_order
    (db : Database) (query : List ℝ) (filt : Option (List String))
    (matchCount : ℕ) (res : List SearchRow)
    (h : IsSearchResult db query filt matchCount res) :
    res.length = min matchCount (searchRows db query filt).length ∧
    res.length ≤ matchCount ∧
    res.Sorted (fun a b => b.similarity ≤ a.similarity) ∧
    res.Sorted (fun a b => distKey a ≤ distKey b) ∧
    (searchRows db query filt = [] → res = []) := by
  obtain ⟨l, hperm, hsort, hres⟩ := h
  have hsortres : res.Sorted fun a b => distKey a ≤ distKey b := by
    rw [hres]
    exact List.Pairwise.sublist (List.take_sublist matchCount l) hsort
  refine ⟨?_, ?_, ?_, hsortres, ?_⟩
  · rw [hres, List.length_take, hperm.length_eq]
  · rw [hres, List.length_take]
    exact min_le_left _ _
  · refine hsortres.imp fun {a b} hd => ?_
    unfold distKey at hd
    linarith
  · intro h0
    have hl : l = [] := List.Perm.eq_nil (h0 ▸ hperm)
    rw [hres, hl, List.take_nil]

/-- Witness for C1: a single-chunk corpus queried with match count 10
satisfies the result relation with the sorted row list itself, and the
theorem applies. -/
theorem search_similar_chunks_count_and_order_witness :
    IsSearchResult
      { chunks := [{ id := "c1", paper_id := "p1", content := "x",
                     embedding := some [1, 0] }],
        papers := [{ id := "p1", title := "T" }] }
      [1, 0] none 10
      ((searchRows
        { chunks := [{ id := "c1", paper_id := "p1", content := "x",
                       embedding := some [1, 0] }],
          papers := [{ id := "p1", title := "T" }] } [1, 0] none).take 10) ∧
    ((searchRows
      { chunks := [{ id := "c1", paper_id := "p1", content := "x",
                     embedding := some [1, 0] }],
        papers := [{ id := "p1", title := "T" }] } [1, 0] none).take 10).length =
      min 10 (searchRows
      { chunks := [{ id := "c1", paper_id := "p1", content := "x",
                     embedding := some [1, 0] }],
        papers := [{ id := "p1", title := "T" }] } [1, 0] none).length := by
  have hrows : searchRows
      { chunks := [{ id := "c1", paper_id := "p1", content := "x",
                     embedding := some [1, 0] }],
        papers := [{ id := "p1", title := "T" }] } [1, 0] none =
      [{ chunk_id := "c1", paper_id := "p1", paper_title := "T", content := "x",
         similarity := 1 - cosineDistance [1, 0] [1, 0] }] := by
    simp [searchRows, filterOk]
  have hIs : IsSearchResult
      { chunks := [{ id := "c1", paper_id := "p1", content := "x",
                     embedding := some [1, 0] }],
        papers := [{ id := "p1", title := "T" }] }
      [1, 0] none 10
      ((searchRows
        { chunks := [{ id := "c1", paper_id := "p1", content := "x",
                       embedding := some [1, 0] }],
          papers := [{ id := "p1", title := "T" }] } [1, 0] none).take 10) := by
    refine ⟨searchRows _ [1, 0] none, List.Perm.refl _, ?_, rfl⟩
    rw [hrows]
    exact List.sorted_singleton _
  exact ⟨hIs,
    (search_similar_chunks_count_and_order _ _ _ _ _ hIs).1⟩

/-! ## Claim C2 -/

/-- Inversion for rows of search_similar_chunks: every selected row takes
its similarity from the cosine distance of the embedding of some chunk
of the corpus. -/
theorem mem_searchRows (db : Database) (query : List ℝ)
    (filt : Option (List String)) (r : SearchRow)
    (hr : r ∈ searchRows db query filt) :
    ∃ c ∈ db.chunks, ∃ e, c.embedding = some e ∧
      r.similarity = 1 - cosineDistance e query := by
  rw [searchRows, List.mem_flatMap] at hr
  obtain ⟨c, hc, hrc⟩ := hr
  refine ⟨c, hc, ?_⟩
  cases hemb : c.embedding with
  | none => rw [hemb] at hrc; simp at hrc
  | some e =>
    rw [hemb] at hrc
    by_cases hf : filterOk filt c.paper_id
    · simp only [hf, if_true, List.mem_map] at hrc
      obtain ⟨p, _, hp⟩ := hrc
      exact ⟨e, rfl, by rw [← hp]⟩
    · simp only [hf, if_false] at hrc
      simp at hrc

/-- Counterexample to C2 as stated: with a chunk embedding opposite to
the query embedding, search_similar_chunks reports a similarity of -1,
outside [0,1], because 1 - cosine distance is not clipped. -/
theorem search_similarity_negative_cex :
    IsSearchResult
      { chunks := [{ id := "c1", paper_id := "p1", content := "x",
                     embedding := some [-1, 0] }],
        papers := [{ id := "p1", title := "T" }] }
      [1, 0] none 1
      [{ chunk_id := "c1", paper_id := "p1", paper_title := "T", content := "x",
         similarity := 1 - cosineDistance [-1, 0] [1, 0] }] ∧
    (SearchRow.similarity
      { chunk_id := "c1", paper_id := "p1", paper_title := "T", content := "x",
        similarity := 1 - cosineDistance [-1, 0] [1, 0] }) < 0 := by
  constructor
  · refine ⟨[{ chunk_id := "c1", paper_id := "p1", paper_title := "T",
               content := "x",
               similarity := 1 - cosineDistance [-1, 0] [1, 0] }], ?_, ?_, rfl⟩
    · have hrows : searchRows
          { chunks := [{ id := "c1", paper_id := "p1", content := "x",
                         embedding := some [-1, 0] }],
            papers := [{ id := "p1", title := "T" }] } [1, 0] none =
          [{ chunk_id := "c1", paper_id := "p1", paper_title := "T",
             content := "x",
             similarity := 1 - cosineDistance [-1, 0] [1, 0] }] := by
        simp [searchRows, filterOk]
      rw [hrows]
    · exact List.sorted_singleton _
  · have hd : cosineDistance [-1, 0] [1, 0] = 2 := by
      have h1 : dotProduct [-1, 0] ([-1, 0] : List ℝ) = 1 := by
        norm_num [dotProduct]
      have h2 : dotProduct [1, 0] ([1, 0] : List ℝ) = 1 := by
        norm_num [dotProduct]
      have h3 : dotProduct [-1, 0] ([1, 0] : List ℝ) = -1 := by
        norm_num [dotProduct]
      unfold cosineDistance vecNorm
      rw [h1, h2, h3, Real.sqrt_one]
      norm_num
    simp only [hd]
    norm_num

/-- C2 amended: the similarity reported by search_similar_chunks is
1 - cosine distance with no clipping; for nonzero embeddings it lies in
[-1,1], and it can be negative (so the [0,1] range of the claim fails). -/
theorem search_similarity_in_cosine_range
    (db : Database) (query : List ℝ) (filt : Option (List String))
    (matchCount : ℕ) (res : List SearchRow) (r : SearchRow)
    (hres : IsSearchResult db query filt matchCount res) (hr : r ∈ res)
    (hq : 0 < dotProduct query query)
    (hemb : ∀ c ∈ db.chunks, ∀ e, c.embedding = some e → 0 < dotProduct e e) :
    -1 ≤ r.similarity ∧ r.similarity ≤ 1 := by
  obtain ⟨l, hperm, _, hres⟩ := hres
  have hrl : r ∈ l := List.take_subset _ _ (hres ▸ hr)
  have hrows : r ∈ searchRows db query filt := hperm.subset hrl
  obtain ⟨c, hc, e, he, hsim⟩ := mem_searchRows db query filt r hrows
  rw [hsim]
  exact similarity_bounds e query (hemb c hc e he) hq

/-- Witness for the amended C2: the single-chunk corpus with embedding
equal to the query satisfies all hypotheses and the bounds apply. -/
theorem search_similarity_in_cosine_range_witness :
    -1 ≤ SearchRow.similarity
        { chunk_id := "c1", paper_id := "p1", paper_title := "T",
          content := "x", similarity := 1 - cosineDistance [1, 0] [1, 0] } ∧
      SearchRow.similarity
        { chunk_id := "c1", paper_id := "p1", paper_title := "T",
          content := "x", similarity := 1 - cosineDistance [1, 0] [1, 0] } ≤ 1 := by
  have hrows : searchRows
      { chunks := [{ id := "c1", paper_id := "p1", content := "x",
                     embedding := some [1, 0] }],
        papers := [{ id := "p1", title := "T" }] } [1, 0] none =
      [{ chunk_id := "c1", paper_id := "p1", paper_title := "T", content := "x",
         similarity := 1 - cosineDistance [1, 0] [1, 0] }] := by
    simp [searchRows, filterOk]
  have hIs : IsSearchResult
      { chunks := [{ id := "c1", paper_id := "p1", content := "x",
                     embedding := some [1, 0] }],
        papers := [{ id := "p1", title := "T" }] } [1, 0] none 1
      [{ chunk_id := "c1", paper_id := "p1", paper_title := "T", content := "x",
         similarity := 1 - cosineDistance [1, 0] [1, 0] }] := by
    refine ⟨[{ chunk_id := "c1", paper_id := "p1", paper_title := "T",
               content := "x", similarity := 1 - cosineDistance [1, 0] [1, 0] }],
      ?_, List.sorted_singleton _, rfl⟩
    rw [hrows]
  refine search_similarity_in_cosine_range _ [1, 0] none 1 _ _ hIs
    (List.mem_singleton.mpr rfl) (by norm_num [dotProduct]) ?_
  intro c hc e he
  simp only [List.mem_singleton] at hc
  subst hc
  simp only [Option.some.injEq] at he
  subst he
  norm_num [dotProduct]

/-! ## Claim C3 -/

/-- Counterexample to C3 as stated: the ORDER BY of search_similar_chunks
has no tie-break key, so with two chunks at equal cosine distance from
the query both orders of the two rows satisfy the result relation; the
result sequence is not determined by the query and the corpus. -/
theorem search_tie_nondeterminism_cex :
    IsSearchResult
      { chunks := [{ id := "c1", paper_id := "p1", content := "x",
                     embedding := some [1, 0] },
                   { id := "c2", paper_id := "p1", content := "y",
                     embedding := some [1, 0] }],
        papers := [{ id := "p1", title := "T" }] }
      [1, 0] none 2
      [{ chunk_id := "c1", paper_id := "p1", paper_title := "T", content := "x",
         similarity := 1 - cosineDistance [1, 0] [1, 0] },
       { chunk_id := "c2", paper_id := "p1", paper_title := "T", content := "y",
         similarity := 1 - cosineDistance [1, 0] [1, 0] }] ∧
    IsSearchResult
      { chunks := [{ id := "c1", paper_id := "p1", content := "x",
                     embedding := some [1, 0] },
                   { id := "c2", paper_id := "p1", content := "y",
                     embedding := some [1, 0] }],
        papers := [{ id := "p1", title := "T" }] }
      [1, 0] none 2
      [{ chunk_id := "c2", paper_id := "p1", paper_title := "T", content := "y",
         similarity := 1 - cosineDistance [1, 0] [1, 0] },
       { chunk_id := "c1", paper_id := "p1", paper_title := "T", content := "x",
         similarity := 1 - cosineDistance [1, 0] [1, 0] }] ∧
    ([ { chunk_id := "c1", paper_id := "p1", paper_title := "T",
         content := "x", similarity := 1 - cosineDistance [1, 0] [1, 0] },
       { chunk_id := "c2", paper_id := "p1", paper_title := "T",
         content := "y", similarity := 1 - cosineDistance [1, 0] [1, 0] } ]
      : List SearchRow) ≠
    [ { chunk_id := "c2", paper_id := "p1", paper_title := "T",
        content := "y", similarity := 1 - cosineDistance [1, 0] [1, 0] },
      { chunk_id := "c1", paper_id := "p1", paper_title := "T",
        content := "x", similarity := 1 - cosineDistance [1, 0] [1, 0] } ] := by
  have hrows : searchRows
      { chunks := [{ id := "c1", paper_id := "p1", content := "x",
                     embedding := some [1, 0] },
                   { id := "c2", paper_id := "p1", content := "y",
                     embedding := some [1, 0] }],
        papers := [{ id := "p1", title := "T" }] } [1, 0] none =
      [{ chunk_id := "c1", paper_id := "p1", paper_title := "T", content := "x",
         similarity := 1 - cosineDistance [1, 0] [1, 0] },
       { chunk_id := "c2", paper_id := "p1", paper_title := "T", content := "y",
         similarity := 1 - cosineDistance [1, 0] [1, 0] }] := by
    simp [searchRows, filterOk]
  have hsorted₁ : List.Sorted (fun a b => distKey a ≤ distKey b)
      [{ chunk_id := "c1", paper_id := "p1", paper_title := "T", content := "x",
         similarity := 1 - cosineDistance [1, 0] [1, 0] },
       { chunk_id := "c2", paper_id := "p1", paper_title := "T", content := "y",
         similarity := 1 - cosineDistance [1, 0] [1, 0] }] := by
    rw [List.sorted_cons]
    exact ⟨fun b hb => by
      simp only [List.mem_singleton] at hb
      rw [hb]
      exact le_of_eq rfl,
      List.sorted_singleton _⟩
  have hsorted₂ : List.Sorted (fun a b => distKey a ≤ distKey b)
      [{ chunk_id := "c2", paper_id := "p1", paper_title := "T", content := "y",
         similarity := 1 - cosineDistance [1, 0] [1, 0] },
       { chunk_id := "c1", paper_id := "p1", paper_title := "T", content := "x",
         similarity := 1 - cosineDistance [1, 0] [1, 0] }] := by
    rw [List.sorted_cons]
    exact ⟨fun b hb => by
      simp only [List.mem_singleton] at hb
      rw [hb]
      exact le_of_eq rfl,
      List.sorted_singleton _⟩
  refine ⟨⟨_, by rw [hrows], hsorted₁, rfl⟩,
    ⟨_, by rw [hrows]; exact List.Perm.swap _ _ _, hsorted₂, rfl⟩, ?_⟩
  intro h
  simp at h

/-- C3 amended: the SQL orders only by cosine distance with no secondary
key, so determinism holds exactly when the eligible rows have pairwise
distinct distances; under that hypothesis any two results of the same
query against the same corpus coincide. -/
theorem search_deterministic_of_distinct_distances
    (db : Database) (query : List ℝ) (filt : Option (List String))
    (matchCount : ℕ) (res₁ res₂ : List SearchRow)
    (hdist : (searchRows db query filt).Pairwise
      (fun a b => distKey a ≠ distKey b))
    (h₁ : IsSearchResult db query filt matchCount res₁)
    (h₂ : IsSearchResult db query filt matchCount res₂) :
    res₁ = res₂ := by
  obtain ⟨l₁, p₁, s₁, e₁⟩ := h₁
  obtain ⟨l₂, p₂, s₂, e₂⟩ := h₂
  have hl : l₁ = l₂ := by
    refine sorted_perm_eq_of_pairwise_ne distKey l₁ l₂ (p₁.trans p₂.symm) s₁ s₂ ?_
    exact (List.Perm.pairwise_iff (fun h => fun he => h he.symm) p₁).mpr hdist
  rw [e₁, e₂, hl]

/-- Witness for the amended C3: a single-chunk corpus has pairwise
distinct distances vacuously, and the two (identical) results coincide. -/
theorem search_deterministic_of_distinct_distances_witness :
    (searchRows
      { chunks := [{ id := "c1", paper_id := "p1", content := "x",
                     embedding := some [1, 0] }],
        papers := [{ id := "p1", title := "T" }] } [1, 0] none).take 1 =
    (searchRows
      { chunks := [{ id := "c1", paper_id := "p1", content := "x",
                     embedding := some [1, 0] }],
        papers := [{ id := "p1", title := "T" }] } [1, 0] none).take 1 := by
  have hrows : searchRows
      { chunks := [{ id := "c1", paper_id := "p1", content := "x",
                     embedding := some [1, 0] }],
        papers := [{ id := "p1", title := "T" }] } [1, 0] none =
      [{ chunk_id := "c1", paper_id := "p1", paper_title := "T", content := "x",
         similarity := 1 - cosineDistance [1, 0] [1, 0] }] := by
    simp [searchRows, filterOk]
  have hIs : IsSearchResult
      { chunks := [{ id := "c1", paper_id := "p1", content := "x",
                     embedding := some [1, 0] }],
        papers := [{ id := "p1", title := "T" }] } [1, 0] none 1
      ((searchRows
        { chunks := [{ id := "c1", paper_id := "p1", content := "x",
                       embedding := some [1, 0] }],
          papers := [{ id := "p1", title := "T" }] } [1, 0] none).take 1) := by
    refine ⟨_, List.Perm.refl _, ?_, rfl⟩
    rw [hrows]
    exact List.sorted_singleton _
  refine search_deterministic_of_distinct_distances _ [1, 0] none 1 _ _ ?_ hIs hIs
  rw [hrows]
  exact List.pairwise_singleton _ _

/-! ## Claim C4 -/

/-- C4: in the rendered answer every citation badge comes from a marker
whose number n satisfies 1 <= n <= len(citations) and resolves to the
1-based entry citations[n-1]; a marker outside that range is never
shipped as a citation badge and falls through as plain text. -/
theorem citation_markers_resolve_or_fall_through
    (answer : List Char) (citations : List Citation) :
    (∀ n c, RPart.badge n c ∈ renderAnswerWithCitations answer citations →
        1 ≤ n ∧ n ≤ citations.length ∧ citations.get? (n - 1) = some c) ∧
    (∀ tok ∈ tokenize answer, ∀ n raw, tok = Token.marker n raw →
        ¬(1 ≤ n ∧ n ≤ citations.length) →
        renderToken citations tok = RPart.plain raw) := by
  constructor
  · intro n c hmem
    rw [renderAnswerWithCitations, List.mem_map] at hmem
    obtain ⟨tok, _, htok⟩ := hmem
    cases tok with
    | text s => simp [renderToken] at htok
    | marker m raw =>
      cases hidx : jsIndex citations ((m : ℤ) - 1) with
      | none => simp [renderToken, hidx] at htok
      | some c' =>
        simp only [renderToken, hidx, RPart.badge.injEq] at htok
        obtain ⟨hn, hc⟩ := htok
        subst hn
        subst hc
        by_cases h0 : (0 : ℤ) ≤ (m : ℤ) - 1
        · rw [jsIndex, if_pos h0] at hidx
          have hm1 : ((m : ℤ) - 1).toNat = m - 1 := by omega
          rw [hm1] at hidx
          have hlt : m - 1 < citations.length := (List.get?_eq_some.mp hidx).1
          exact ⟨by omega, by omega, hidx⟩
        · rw [jsIndex, if_neg h0] at hidx
          cases hidx
  · intro tok _ n raw heq hrange
    subst heq
    have hidx : jsIndex citations ((n : ℤ) - 1) = none := by
      rw [jsIndex]
      by_cases h0 : (0 : ℤ) ≤ (n : ℤ) - 1
      · rw [if_pos h0]
        apply List.get?_eq_none.mpr
        have h1 : ¬ n ≤ citations.length := fun h => hrange ⟨by omega, h⟩
        omega
      · rw [if_neg h0]
    simp [renderToken, hidx]

/-- Witness for C4: the answer consisting of the marker [1] against a
one-entry citation list renders a badge resolved to that entry, and the
marker [2] against the same list falls through as plain text. -/
theorem citation_markers_resolve_or_fall_through_witness :
    RPart.badge 1 { claim := "cl", chunk_ids := ["ch"], confidence := 1 } ∈
      renderAnswerWithCitations ['[', '1', ']']
        [{ claim := "cl", chunk_ids := ["ch"], confidence := 1 }] ∧
    (1 ≤ 1 ∧
      1 ≤ ([{ claim := "cl", chunk_ids := ["ch"], confidence := 1 }] :
        List Citation).length ∧
      ([{ claim := "cl", chunk_ids := ["ch"], confidence := 1 }] :
        List Citation).get? (1 - 1) =
        some { claim := "cl", chunk_ids := ["ch"], confidence := 1 }) ∧
    renderToken [{ claim := "cl", chunk_ids := ["ch"], confidence := 1 }]
      (Token.marker 2 ['[', '2', ']']) = RPart.plain ['[', '2', ']'] := by
  have hmem : RPart.badge 1 { claim := "cl", chunk_ids := ["ch"], confidence := 1 } ∈
      renderAnswerWithCitations ['[', '1', ']']
        [{ claim := "cl", chunk_ids := ["ch"], confidence := 1 }] := by decide
  have htok : Token.marker 2 ['[', '2', ']'] ∈ tokenize ['[', '2', ']'] := by decide
  refine ⟨hmem,
    (citation_markers_resolve_or_fall_through ['[', '1', ']'] _).1 1 _ hmem,
    (citation_markers_resolve_or_fall_through ['[', '2', ']'] _).2
      (Token.marker 2 ['[', '2', ']']) htok 2 ['[', '2', ']'] rfl (by decide)⟩

/-! ## Claim C5 -/

/-- Counterexample to C5 as stated: on a zero-claim result the score is
0/0 = 0 while every claim is vacuously supported, so score = 1 fails to
be equivalent to all claims being supported. -/
theorem faithfulness_zero_claims_cex :
    ¬ ((faithfulnessScore [] = 1) ↔
      ∀ c ∈ ([] : List FClaim), c.verdict = "supported") := by
  intro h
  have h1 : faithfulnessScore [] = 1 := h.mpr (by intro c hc; cases hc)
  norm_num [faithfulnessScore, supportedCount] at h1

/-- C5 amended: for a nonempty claim list the score equals
supported_count / total_claims, lies in [0,1], equals 1 exactly when
every verdict is supported and equals 0 exactly when no verdict is. -/
theorem faithfulness_score_props (claims : List FClaim) (h : claims ≠ []) :
    faithfulnessScore claims =
      (supportedCount claims : ℚ) / (claims.length : ℚ) ∧
    0 ≤ faithfulnessScore claims ∧ faithfulnessScore claims ≤ 1 ∧
    (faithfulnessScore claims = 1 ↔ ∀ c ∈ claims, c.verdict = "supported") ∧
    (faithfulnessScore claims = 0 ↔ ∀ c ∈ claims, c.verdict ≠ "supported") := by
  have ht : 0 < claims.length := List.length_pos.mpr h
  have htQ : (0 : ℚ) < (claims.length : ℚ) := by exact_mod_cast ht
  have hs : supportedCount claims ≤ claims.length := List.length_filter_le _ _
  refine ⟨rfl, ?_, ?_, ?_, ?_⟩
  · exact div_nonneg (by positivity) htQ.le
  · exact (div_le_one htQ).mpr (by exact_mod_cast hs)
  · rw [faithfulnessScore, div_eq_one_iff_eq (ne_of_gt htQ)]
    constructor
    · intro h1 c hc
      have heq : supportedCount claims = claims.length := by exact_mod_cast h1
      rw [supportedCount] at heq
      exact beq_iff_eq.mp (List.filter_length_eq_length.mp heq c hc)
    · intro hall
      have heq : (claims.filter fun c => c.verdict == "supported").length =
          claims.length :=
        List.filter_length_eq_length.mpr fun a ha => beq_iff_eq.mpr (hall a ha)
      rw [supportedCount]
      exact_mod_cast heq
  · rw [faithfulnessScore, div_eq_zero_iff]
    constructor
    · intro h0 c hc hcs
      rcases h0 with h0 | h0
      · have heq : supportedCount claims = 0 := by exact_mod_cast h0
        rw [supportedCount, List.length_eq_zero] at heq
        exact List.filter_eq_nil_iff.mp heq c hc (beq_iff_eq.mpr hcs)
      · exact absurd h0 (ne_of_gt htQ)
    · intro hnone
      left
      have heq : claims.filter (fun c => c.verdict == "supported") = [] :=
        List.filter_eq_nil_iff.mpr fun a ha hp => hnone a ha (beq_iff_eq.mp hp)
      rw [supportedCount, heq]
      rfl

/-- Witness for the amended C5: a single supported claim scores 1. -/
theorem faithfulness_score_props_witness :
    0 ≤ faithfulnessScore [⟨"a", "supported", "r"⟩] ∧
    faithfulnessScore [⟨"a", "supported", "r"⟩] ≤ 1 ∧
    (faithfulnessScore [⟨"a", "supported", "r"⟩] = 1 ↔
      ∀ c ∈ [(⟨"a", "supported", "r"⟩ : FClaim)], c.verdict = "supported") := by
  have h := faithfulness_score_props [⟨"a", "supported", "r"⟩]
    (List.cons_ne_nil _ _)
  exact ⟨h.2.1, h.2.2.1, h.2.2.2.1⟩

/-! ## Claim C6 -/

/-- Round trip of a single decimal digit through the character code. -/
theorem charDigit_digitChar (d : ℕ) (hd : d < 10) :
    charDigit (digitChar d) = d := by
  interval_cases d <;> decide

/-- Round trip of the decimal rendering of a natural number. -/
theorem charsVal_natChars (n : ℕ) : charsVal (natChars n) = n := by
  rw [charsVal, natChars, List.map_map]
  have hmap : List.map (charDigit ∘ digitChar) (Nat.digits 10 n).reverse =
      List.map (fun a => a) (Nat.digits 10 n).reverse :=
    List.map_congr_left fun a ha =>
      charDigit_digitChar a
        (Nat.digits_lt_base (by norm_num) (List.mem_reverse.mp ha))
  rw [hmap, List.map_id', List.reverse_reverse, Nat.ofDigits_digits]

/-- C6: getRankChangeDisplay returns null exactly when rerank_score is
null; otherwise the display encodes change = original_rank - rank, the
icon classifies its sign, and the printed text decodes back to the rank
delta. -/
theorem rank_change_display_props (o r : ℤ) (s : Option ℚ) :
    (getRankChangeDisplay o r s = none ↔ s = none) ∧
    (∀ d, getRankChangeDisplay o r s = some d →
      decodeRankText d.text = o - r ∧
      (d.icon = RankIcon.arrowUp ↔ 0 < o - r) ∧
      (d.icon = RankIcon.arrowDown ↔ o - r < 0) ∧
      (d.icon = RankIcon.minus ↔ o - r = 0)) := by
  cases s with
  | none => simp [getRankChangeDisplay]
  | some v =>
    have hcases : getRankChangeDisplay o r (some v) =
        (if 0 < o - r then
          some { icon := RankIcon.arrowUp, text := '+' :: intChars (o - r) }
         else if o - r < 0 then
          some { icon := RankIcon.arrowDown, text := intChars (o - r) }
         else some { icon := RankIcon.minus, text := ['='] }) := rfl
    rcases lt_trichotomy (o - r) 0 with hlt | heq | hgt
    · rw [hcases, if_neg (by omega), if_pos hlt]
      refine ⟨by simp, ?_⟩
      intro d hd
      rw [Option.some.injEq] at hd
      subst hd
      refine ⟨?_, iff_of_false (by simp) (by omega),
        iff_of_true rfl hlt, iff_of_false (by simp) (by omega)⟩
      show decodeRankText (intChars (o - r)) = o - r
      rw [intChars, if_pos hlt]
      have hdec : decodeRankText ('-' :: natChars (o - r).natAbs) =
          -((charsVal (natChars (o - r).natAbs) : ℕ) : ℤ) := rfl
      rw [hdec, charsVal_natChars]
      omega
    · rw [hcases, if_neg (by omega), if_neg (by omega)]
      refine ⟨by simp, ?_⟩
      intro d hd
      rw [Option.some.injEq] at hd
      subst hd
      refine ⟨?_, iff_of_false (by simp) (by omega),
        iff_of_false (by simp) (by omega), iff_of_true rfl heq⟩
      show decodeRankText ['='] = o - r
      rw [show decodeRankText ['='] = 0 from rfl]
      omega
    · rw [hcases, if_pos hgt]
      refine ⟨by simp, ?_⟩
      intro d hd
      rw [Option.some.injEq] at hd
      subst hd
      refine ⟨?_, iff_of_true rfl hgt, iff_of_false (by simp) (by omega),
        iff_of_false (by simp) (by omega)⟩
      show decodeRankText ('+' :: intChars (o - r)) = o - r
      rw [intChars, if_neg (by omega)]
      have hdec : decodeRankText ('+' :: natChars (o - r).natAbs) =
          ((charsVal (natChars (o - r).natAbs) : ℕ) : ℤ) := rfl
      rw [hdec, charsVal_natChars]
      omega

/-- Witness for C6: a chunk promoted from rank 2 to rank 1 under a
rerank score displays an up arrow with text +1 that decodes to the rank
delta 1. -/
theorem rank_change_display_props_witness :
    getRankChangeDisplay 2 1 (some 1) =
      some { icon := RankIcon.arrowUp, text := ['+', '1'] } ∧
    decodeRankText
      (RankChange.text { icon := RankIcon.arrowUp, text := ['+', '1'] }) =
      2 - 1 := by
  have h1 : Nat.digits 10 1 = [1] := by norm_num [Nat.digits_def']
  have hd : getRankChangeDisplay 2 1 (some 1) =
      some { icon := RankIcon.arrowUp, text := ['+', '1'] } := by
    simp only [getRankChangeDisplay, intChars, natChars, h1]
    norm_num
    decide
  exact ⟨hd, ((rank_change_display_props 2 1 (some 1)).2 _ hd).1⟩

/-! ## Claim C7 -/

/-- The head of a dropWhile result fails the predicate. -/
theorem dropWhile_head_not {α : Type} (p : α → Bool) (l : List α) :
    ∀ c, (l.dropWhile p).head? = some c → p c = false := by
  induction l with
  | nil => intro c hc; simp at hc
  | cons a t ih =>
    intro c hc
    rw [List.dropWhile_cons] at hc
    by_cases hpa : p a
    · rw [if_pos hpa] at hc
      exact ih c hc
    · rw [if_neg hpa] at hc
      simp only [List.head?_cons, Option.some.injEq] at hc
      subst hc
      simpa using hpa

/-- A list whose head fails the predicate is unchanged by dropWhile. -/
theorem dropWhile_eq_self_of_head {α : Type} (p : α → Bool) (l : List α)
    (h : ∀ c, l.head? = some c → p c = false) : l.dropWhile p = l := by
  cases l with
  | nil => rfl
  | cons a t => simp [List.dropWhile_cons, h a rfl]

/-- The first character of a trimmed string is not whitespace. -/
theorem jsTrim_head (l : List Char) :
    ∀ c, (jsTrim l).head? = some c → Char.isWhitespace c = false := by
  intro c hc
  have hsfx : (((l.dropWhile Char.isWhitespace).reverse).dropWhile
      Char.isWhitespace) <:+ (l.dropWhile Char.isWhitespace).reverse :=
    List.dropWhile_suffix _
  rw [← List.reverse_reverse
    (((l.dropWhile Char.isWhitespace).reverse).dropWhile Char.isWhitespace)]
    at hsfx
  have hpre : jsTrim l <+: l.dropWhile Char.isWhitespace :=
    List.reverse_suffix.mp hsfx
  obtain ⟨t, ht⟩ := hpre
  have hv : (l.dropWhile Char.isWhitespace).head? = some c := by
    rw [← ht, List.head?_append, hc]
    rfl
  exact dropWhile_head_not _ l c hv

/-- The last character of a trimmed string is not whitespace. -/
theorem jsTrim_rev_head (l : List Char) :
    ∀ c, ((jsTrim l).reverse).head? = some c → Char.isWhitespace c = false := by
  intro c hc
  rw [jsTrim, List.reverse_reverse] at hc
  exact dropWhile_head_not _ _ c hc

/-- Trimming is idempotent: a trimmed string is its own trim. -/
theorem jsTrim_idem (l : List Char) : jsTrim (jsTrim l) = jsTrim l := by
  have h1 : (jsTrim l).dropWhile Char.isWhitespace = jsTrim l :=
    dropWhile_eq_self_of_head _ _ (jsTrim_head l)
  show ((((jsTrim l).dropWhile _).reverse).dropWhile _).reverse = jsTrim l
  rw [h1]
  have h2 : ((jsTrim l).reverse).dropWhile Char.isWhitespace =
      (jsTrim l).reverse :=
    dropWhile_eq_self_of_head _ _ (jsTrim_rev_head l)
  rw [h2, List.reverse_reverse]

/-- The Top K value stays inside the slider range along any sequence of
bounded control events. -/
theorem runQI_topK_bounded (s : QIState) (events : List QIEvent)
    (hs : 1 ≤ s.topK ∧ s.topK ≤ 50) (hev : ∀ e ∈ events, sliderBounded e) :
    1 ≤ (runQIEvents s events).topK ∧ (runQIEvents s events).topK ≤ 50 := by
  induction events generalizing s with
  | nil => exact hs
  | cons e es ih =>
    refine ih (applyQIEvent s e) ?_ fun x hx => hev x (List.mem_cons_of_mem _ hx)
    cases e with
    | setQuestion q => exact hs
    | setTopK v => exact hev _ (List.mem_cons_self _ _)
    | setReranking b => exact hs

/-- C7: every query the form submits has a nonempty, trimmed question,
an integer top_k inside [1,50], and the defaults are top_k = 10 and
enable_reranking = false. -/
theorem query_input_contract (defaultQuestion : List Char)
    (events : List QIEvent) (hev : ∀ e ∈ events, sliderBounded e)
    (q : SubmittedQuery)
    (hs : handleSubmit (runQIEvents (initQIState defaultQuestion) events) =
      some q) :
    q.question ≠ [] ∧ jsTrim q.question = q.question ∧
    1 ≤ q.top_k ∧ q.top_k ≤ 50 ∧
    (initQIState defaultQuestion).topK = 10 ∧
    (initQIState defaultQuestion).enableReranking = false := by
  have hbound := runQI_topK_bounded (initQIState defaultQuestion) events
    ⟨by norm_num [initQIState], by norm_num [initQIState]⟩ hev
  rw [handleSubmit] at hs
  by_cases hne :
      jsTrim (runQIEvents (initQIState defaultQuestion) events).question ≠ []
  · rw [if_pos hne, Option.some.injEq] at hs
    subst hs
    exact ⟨hne, jsTrim_idem _, hbound.1, hbound.2, rfl, rfl⟩
  · rw [if_neg hne] at hs
    cases hs

/-- Witness for C7: submitting after moving the slider to 5 yields the
trimmed nonempty question with top_k 5 inside the range. -/
theorem query_input_contract_witness :
    handleSubmit (runQIEvents (initQIState ['h', 'i']) [QIEvent.setTopK 5]) =
      some { question := ['h', 'i'], top_k := 5, enable_reranking := false } ∧
    (['h', 'i'] : List Char) ≠ [] ∧ jsTrim ['h', 'i'] = ['h', 'i'] ∧
    (1 : ℤ) ≤ 5 ∧ (5 : ℤ) ≤ 50 := by
  have hs : handleSubmit (runQIEvents (initQIState ['h', 'i'])
      [QIEvent.setTopK 5]) =
      some { question := ['h', 'i'], top_k := 5, enable_reranking := false } := by
    decide
  have hev : ∀ e ∈ [QIEvent.setTopK 5], sliderBounded e := by
    intro e he
    simp only [List.mem_singleton] at he
    subst he
    exact ⟨by norm_num, by norm_num⟩
  have h := query_input_contract ['h', 'i'] [QIEvent.setTopK 5] hev _ hs
  exact ⟨hs, h.1, h.2.1, h.2.2.1, h.2.2.2.1⟩

/-! ## Claim C8 -/

/-- C8: the two noise encodings agree across consumers: normalization
maps a null cluster_id to -1, every negative id gets the noise
appearance, and every paper with negative cluster_id lands in the
unclustered group and in no cluster section. -/
theorem noise_cluster_encodings_agree :
    (∀ ps : List RawPaper,
      (normalizeCoordinates ps).map (fun p => p.cluster_id) =
        ps.map fun p => p.cluster_id.getD (-1)) ∧
    (∀ cid : ℤ, cid < 0 → getClusterAppearance cid =
      { color := noiseColor, material := matteMaterial }) ∧
    (∀ (papers : List Paper) (p : Paper), p ∈ papers → p.cluster_id < 0 →
      p ∈ unclusteredPapers papers ∧
        ∀ cid : ℤ, p ∉ papersByCluster papers cid) := by
  refine ⟨?_, ?_, ?_⟩
  · intro ps
    by_cases hps : ps.isEmpty
    · rw [normalizeCoordinates, if_pos hps]
      rw [List.isEmpty_iff] at hps
      subst hps
      rfl
    · rw [normalizeCoordinates, if_neg hps]
      exact (List.map_map _ _ _).trans rfl
  · intro cid hcid
    rw [getClusterAppearance, if_pos hcid]
  · intro papers p hp hneg
    constructor
    · rw [unclusteredPapers, List.mem_filter]
      exact ⟨hp, by simpa using hneg⟩
    · intro cid hmem
      rw [papersByCluster, List.mem_filter] at hmem
      have hcond := hmem.2
      simp only [Bool.and_eq_true, Bool.not_eq_true', decide_eq_false_iff_not]
        at hcond
      exact hcond.1 hneg

/-- Witness for C8: a raw paper with null cluster_id normalizes to -1,
the noise appearance applies to -1, and a paper with cluster_id -1 is
grouped as unclustered only. -/
theorem noise_cluster_encodings_agree_witness :
    (normalizeCoordinates
      [ { paper_id := "p", arxiv_id := "a", title := "t",
          coords := (0, 0, 0), cluster_id := none, chunk_count := 1 } ]).map
      (fun p => p.cluster_id) = [-1] ∧
    getClusterAppearance (-1) =
      { color := noiseColor, material := matteMaterial } ∧
    ({ paper_id := "p", arxiv_id := "a", title := "t", coords := (0, 0, 0),
       cluster_id := -1, chunk_count := 1 } : Paper) ∈
      unclusteredPapers
        [ { paper_id := "p", arxiv_id := "a", title := "t",
            coords := (0, 0, 0), cluster_id := -1, chunk_count := 1 } ] ∧
    ∀ cid : ℤ,
      ({ paper_id := "p", arxiv_id := "a", title := "t", coords := (0, 0, 0),
         cluster_id := -1, chunk_count := 1 } : Paper) ∉
        papersByCluster
          [ { paper_id := "p", arxiv_id := "a", title := "t",
              coords := (0, 0, 0), cluster_id := -1, chunk_count := 1 } ]
          cid := by
  have h := noise_cluster_encodings_agree
  have hgrp := h.2.2
    [ { paper_id := "p", arxiv_id := "a", title := "t",
        coords := (0, 0, 0), cluster_id := -1, chunk_count := 1 } ]
    { paper_id := "p", arxiv_id := "a", title := "t",
      coords := (0, 0, 0), cluster_id := -1, chunk_count := 1 }
    (List.mem_singleton.mpr rfl) (by norm_num)
  exact ⟨(h.1 _).trans rfl, h.2.1 (-1) (by norm_num), hgrp.1, hgrp.2⟩

/-! ## Claim C9 -/

/-- One step of the recompute job keeps at most one holder. -/
theorem atlas_step_preserves (s : AtlasSystem) (e : AtlasEvent)
    (h : s.running.length ≤ 1) : (atlasStep s e).running.length ≤ 1 := by
  cases e with
  | start i =>
    simp only [atlasStep]
    by_cases he : s.running.isEmpty
    · rw [if_pos he]
      simp
    · rw [if_neg he]
      exact h
  | finish i papers clusters time =>
    simp only [atlasStep]
    by_cases he : s.running = [i]
    · rw [if_pos he]
      simp
    · rw [if_neg he]
      exact h

/-- The at-most-one-holder invariant is preserved along any event list. -/
theorem atlas_run_invariant (es : List AtlasEvent) (s : AtlasSystem)
    (h : s.running.length ≤ 1) : (atlasRun s es).running.length ≤ 1 := by
  induction es generalizing s with
  | nil => exact h
  | cons e es ih => exact ih _ (atlas_step_preserves s e h)

/-- C9: in the flag-guarded recompute model from the spec, at most one
recompute holds the job at any time along any event sequence; when two
requests start concurrently, the first holds the job and finishes with
the success result while the second is rejected with the distinct
concurrency status; and the only client-side serialization is that a
click while a request is pending issues no call. -/
theorem atlas_recompute_single_flight (a b : ℕ) (hab : a ≠ b)
    (papers clusters : ℕ) (time : ℚ) (es : List AtlasEvent) :
    (atlasRun atlasInit es).running.length ≤ 1 ∧
    (atlasRun atlasInit [AtlasEvent.start a, AtlasEvent.start b,
        AtlasEvent.finish a papers clusters time]).outcome a =
      RecomputeOutcome.success papers clusters time ∧
    (atlasRun atlasInit [AtlasEvent.start a, AtlasEvent.start b,
        AtlasEvent.finish a papers clusters time]).outcome b =
      RecomputeOutcome.concurrencyError ∧
    (∀ pending : Bool, pending = true → recomputeClick pending = none) := by
  refine ⟨atlas_run_invariant es atlasInit (by simp [atlasInit]), ?_, ?_, ?_⟩
  · simp [atlasRun, atlasStep, atlasInit, hab, Ne.symm hab]
  · simp [atlasRun, atlasStep, atlasInit, hab, Ne.symm hab]
  · intro pending hp
    subst hp
    rfl

/-- Witness for C9: two concrete concurrent requests 0 and 1 where
request 0 finishes with a result and request 1 is rejected. -/
theorem atlas_recompute_single_flight_witness :
    (atlasRun atlasInit []).running.length ≤ 1 ∧
    (atlasRun atlasInit [AtlasEvent.start 0, AtlasEvent.start 1,
        AtlasEvent.finish 0 3 2 5]).outcome 0 =
      RecomputeOutcome.success 3 2 5 ∧
    (atlasRun atlasInit [AtlasEvent.start 0, AtlasEvent.start 1,
        AtlasEvent.finish 0 3 2 5]).outcome 1 =
      RecomputeOutcome.concurrencyError ∧
    recomputeClick true = none := by
  have h := atlas_recompute_single_flight 0 1 (by decide) 3 2 5 []
  exact ⟨h.1, h.2.1, h.2.2.1, h.2.2.2 true rfl⟩

/-! ## Claim C10 -/

/-- Counterexample to C10 as stated: an ok response whose body fails to
parse yields an outcome in none of the three claimed channels: the
rejection of response.json() propagates uncaught. -/
theorem custom_fetch_ok_malformed_cex :
    cfIsThreeChannel (customFetch (FetchOutcome.resp 200 Body.malformed)) =
      false := by
  rfl

/-- C10 amended: customFetch partitions outcomes into four channels: a
rejected fetch gives the fixed connection error; an ok response with a
parsing body returns it as success (and success happens only for ok
statuses); a non-ok response throws an APIError with the status, the
backend detail when present and the status fallback message otherwise;
and an ok response with an unparseable body propagates the parse
rejection, outside the three claimed channels. -/
theorem custom_fetch_four_channels (o : FetchOutcome) :
    (o = FetchOutcome.rejected → customFetch o = CFResult.connectionError
      "Failed to connect to server. Please check that the backend is running.") ∧
    (∀ st j, o = FetchOutcome.resp st (Body.json j) → respOk st = true →
      customFetch o = CFResult.success j st) ∧
    (∀ d st, customFetch o = CFResult.success d st →
      respOk st = true ∧ o = FetchOutcome.resp st (Body.json d)) ∧
    (∀ st j, o = FetchOutcome.resp st (Body.json j) → respOk st = false →
      customFetch o = CFResult.apiError
        (jsOr j.message j.detail ("Request failed with status " ++ toString st))
        st j.detail) ∧
    (∀ st, o = FetchOutcome.resp st Body.malformed → respOk st = false →
      customFetch o = CFResult.apiError
        ("Request failed with status " ++ toString st) st none) ∧
    (∀ st, o = FetchOutcome.resp st Body.malformed → respOk st = true →
      customFetch o = CFResult.parseFailure ∧
        cfIsThreeChannel (customFetch o) = false) := by
  refine ⟨?_, ?_, ?_, ?_, ?_, ?_⟩
  · intro h
    subst h
    rfl
  · intro st j h hok
    subst h
    simp [customFetch, hok]
  · intro d st h
    cases o with
    | rejected => simp [customFetch] at h
    | resp st2 body =>
      by_cases hok : respOk st2 = true
      · cases body with
        | malformed => simp [customFetch, hok] at h
        | json j =>
          simp only [customFetch, hok, if_true, CFResult.success.injEq] at h
          obtain ⟨hj, hst⟩ := h
          subst hj
          subst hst
          exact ⟨hok, rfl⟩
      · cases body <;> simp [customFetch, hok] at h
  · intro st j h hok
    subst h
    simp [customFetch, hok]
  · intro st h hok
    subst h
    simp [customFetch, hok]
  · intro st h hok
    subst h
    constructor
    · simp [customFetch, hok]
    · simp [customFetch, cfIsThreeChannel, hok]

/-- Witness for the amended C10: concrete outcomes exercise the
connection, success and fallback APIError channels. -/
theorem custom_fetch_four_channels_witness :
    customFetch FetchOutcome.rejected = CFResult.connectionError
      "Failed to connect to server. Please check that the backend is running." ∧
    customFetch (FetchOutcome.resp 200
        (Body.json { message := none, detail := none, payload := "d" })) =
      CFResult.success { message := none, detail := none, payload := "d" } 200 ∧
    customFetch (FetchOutcome.resp 500 Body.malformed) =
      CFResult.apiError ("Request failed with status " ++ toString 500)
        500 none := by
  exact ⟨(custom_fetch_four_channels FetchOutcome.rejected).1 rfl,
    (custom_fetch_four_channels _).2.1 200 _ rfl (by decide),
    (custom_fetch_four_channels _).2.2.2.2.1 500 rfl (by decide)⟩
